import Mathlib

/-!
Verification of the proxy-management subsystem (`utils/services/proxy_manager.py`).

The Python source is shallowly embedded below: pure helpers become Lean
functions; network I/O is abstracted by an oracle (`Env.fetch`) giving the
outcome of each GET attempt under a chosen connection strategy; Python
exceptions are modelled with `Except`.  The fragment of CPython's
`urllib.parse.urlparse` actually exercised by the code (scheme split, netloc
extraction, `username`/`password`/`hostname`/`port` properties, including the
`ValueError` raised by the `port` property on a non-numeric or out-of-range
port, and by `urlsplit` on mismatched brackets) is modelled faithfully on
character lists.  Unicode-only behaviours (non-ASCII digits, non-ASCII case
mapping) are outside the model; all inputs of interest are ASCII.
-/

/-- Python `str.strip()` whitespace set (ASCII fragment). -/
def pySpace (c : Char) : Bool :=
  c = ' ' || c = '\t' || c = '\n' || c = '\r' || c = '\x0b' || c = '\x0c'

/-- Python `str.strip()`: drop leading and trailing whitespace. -/
def pyStrip (s : String) : String :=
  ⟨((s.data.dropWhile pySpace).reverse.dropWhile pySpace).reverse⟩

/-- Python `str.startswith` on ASCII strings. -/
def pyStartsWith (s pre : String) : Bool :=
  pre.data.isPrefixOf s.data

/-- Python `s[:1]`. -/
def pyTake1 (s : String) : String :=
  ⟨s.data.take 1⟩

/-- Does `needle` occur as a contiguous segment of `hay`? -/
def containsSeg (needle : List Char) : List Char → Bool
  | [] => needle.isEmpty
  | c :: t => needle.isPrefixOf (c :: t) || containsSeg needle t

/-- Characters legal in a URL scheme after the first (CPython `scheme_chars`). -/
def schemeChar (c : Char) : Bool :=
  c.isAlpha || c.isDigit || c = '+' || c = '-' || c = '.'

/-- CPython `_UNSAFE_URL_BYTES_TO_REMOVE`: tab, CR, LF are removed anywhere. -/
def unsafeUrlByte (c : Char) : Bool :=
  c = '\t' || c = '\r' || c = '\n'

/-- CPython `_WHATWG_C0_CONTROL_OR_SPACE` (stripped from the left of a URL). -/
def c0ControlOrSpace (c : Char) : Bool :=
  c.toNat ≤ 32

/-- Decimal digits of `n` (most-significant first); fuel-driven so that it
reduces definitionally.  `natRepr` below matches Python `str(int)` for the
positive ports that reach it. -/
def natDigitsAux : Nat → Nat → List Char
  | 0, _ => []
  | _ + 1, 0 => []
  | fuel + 1, n + 1 =>
    natDigitsAux fuel ((n + 1) / 10) ++ [Nat.digitChar ((n + 1) % 10)]

/-- Decimal representation of a natural number, as in Python `f-strings`. -/
def natRepr (n : Nat) : String :=
  if n = 0 then "0" else ⟨natDigitsAux n n⟩

/-- The part of a CPython `ParseResult` the source reads: `scheme` (already
lowercased) and `netloc`.  `hostname`, `port`, `username`, `password` are
derived from `netloc` exactly as in `urllib.parse`. -/
structure UrlParts where
  scheme : String
  netloc : String
deriving DecidableEq

/-- CPython `urlsplit` scheme detection: the text before the first `:` is a
scheme iff it is non-empty, starts with an ASCII letter and consists of
`scheme_chars`; it is then lowercased and removed. -/
def splitSchemeL (l : List Char) : List Char × List Char :=
  let pre := l.takeWhile (· ≠ ':')
  match l.dropWhile (· ≠ ':'), pre with
  | ':' :: rest, c :: cs =>
    if c.isAlpha && cs.all schemeChar then
      ((c :: cs).map Char.toLower, rest)
    else ([], l)
  | _, _ => ([], l)

/-- CPython `urlparse` restricted to the fields the source consumes.  Returns
`.error ()` for the `ValueError` urlsplit raises on a netloc containing `[`
without `]` or vice versa. -/
def urlparse (url : String) : Except Unit UrlParts :=
  let l0 := (url.data.dropWhile c0ControlOrSpace).filter (fun c => !unsafeUrlByte c)
  let (sch, rest) := splitSchemeL l0
  match rest with
  | '/' :: '/' :: tail =>
    let netloc := tail.takeWhile (fun c => c ≠ '/' && c ≠ '?' && c ≠ '#')
    if (netloc.contains '[') != (netloc.contains ']') then .error ()
    else .ok ⟨⟨sch⟩, ⟨netloc⟩⟩
  | _ => .ok ⟨⟨sch⟩, ""⟩

/-- `netloc.rpartition('@')`: the host-and-port part, after the last `@`. -/
def netlocAfterAt (p : UrlParts) : List Char :=
  ((p.netloc.data.reverse.takeWhile (· ≠ '@')).reverse)

/-- `netloc.rpartition('@')`: the userinfo before the last `@`, when present. -/
def userinfoOf (p : UrlParts) : Option (List Char) :=
  if p.netloc.data.contains '@' then
    some (p.netloc.data.take (p.netloc.data.length - (netlocAfterAt p).length - 1))
  else none

/-- CPython `ParseResult.username`. -/
def usernameOf (p : UrlParts) : Option String :=
  match userinfoOf p with
  | none => none
  | some ui => some ⟨ui.takeWhile (· ≠ ':')⟩

/-- CPython `ParseResult.password` (`None` when the userinfo has no colon). -/
def passwordOf (p : UrlParts) : Option String :=
  match userinfoOf p with
  | none => none
  | some ui =>
    match ui.dropWhile (· ≠ ':') with
    | ':' :: r => some ⟨r⟩
    | _ => none

/-- CPython `_hostinfo`: raw host and port character strings. -/
def hostPortStrings (p : UrlParts) : List Char × List Char :=
  let hi := netlocAfterAt p
  if hi.contains '[' then
    let bracketed := (hi.dropWhile (· ≠ '[')).drop 1
    let host := bracketed.takeWhile (· ≠ ']')
    let afterBr := (bracketed.dropWhile (· ≠ ']')).drop 1
    (host,
      match afterBr.dropWhile (· ≠ ':') with
      | ':' :: r => r
      | _ => [])
  else
    (hi.takeWhile (· ≠ ':'),
      match hi.dropWhile (· ≠ ':') with
      | ':' :: r => r
      | _ => [])

/-- CPython `ParseResult.hostname`: lowercased, `None` when empty. -/
def hostnameOf (p : UrlParts) : Option String :=
  let h := (hostPortStrings p).1
  if h.isEmpty then none else some ⟨h.map Char.toLower⟩

/-- Digits of a port string to a number. -/
def charsToNat (l : List Char) : Nat :=
  l.foldl (fun a c => a * 10 + (c.toNat - 48)) 0

/-- CPython `ParseResult.port`: `None` when absent, the integer when it is a
digit string in `0..65535`, and a raised `ValueError` (`.error ()`) otherwise. -/
def portOf (p : UrlParts) : Except Unit (Option Nat) :=
  let ps := (hostPortStrings p).2
  if ps.isEmpty then .ok none
  else if ps.all Char.isDigit then
    let n := charsToNat ps
    if n ≤ 65535 then .ok (some n) else .error ()
  else .error ()

/-- Python truthiness of an optional string (`None` and `""` are falsy). -/
def truthyOpt : Option String → Bool
  | none => false
  | some s => !(s = "")

/-- `assign_proxies` from the source: pair tokens with proxies positionally,
remaining tokens paired with `None`; a `None` proxies argument means `[]`. -/
def assign_proxies (tokens : List String) (proxies : Option (List String)) :
    List (String × Option String) :=
  let ps := match proxies with
    | none => []
    | some l => l
  ((tokens.take ps.length).zip ps).map (fun tp => (tp.1, some tp.2))
    ++ (tokens.drop ps.length).map (fun t => (t, none))

lemma assign_proxies_nil_left (proxies : List String) :
    assign_proxies [] (some proxies) = [] := by
  simp [assign_proxies]

lemma assign_proxies_none (tokens : List String) :
    assign_proxies tokens none = tokens.map (fun t => (t, none)) := by
  simp [assign_proxies]

lemma assign_proxies_nil_right (tokens : List String) :
    assign_proxies tokens (some []) = tokens.map (fun t => (t, none)) := by
  simp [assign_proxies]

lemma assign_proxies_cons (t : String) (ts : List String) (p : String)
    (qs : List String) :
    assign_proxies (t :: ts) (some (p :: qs)) =
      (t, some p) :: assign_proxies ts (some qs) := by
  simp [assign_proxies]

/-- Positional characterization: the i-th output pair is the i-th token with
the i-th proxy when it exists. -/
lemma assign_proxies_getElem? (tokens ps : List String) (i : Nat) :
    (assign_proxies tokens (some ps))[i]? =
      (tokens[i]?).map (fun t => (t, ps[i]?)) := by
  induction tokens generalizing ps i with
  | nil => simp [assign_proxies_nil_left]
  | cons t ts ih =>
    cases ps with
    | nil =>
      cases i with
      | zero => simp [assign_proxies_nil_right]
      | succ j => simp [assign_proxies_nil_right, List.getElem?_map]
    | cons p qs =>
      cases i with
      | zero => simp [assign_proxies_cons]
      | succ j => simp [assign_proxies_cons, ih]

lemma assign_proxies_length (tokens ps : List String) :
    (assign_proxies tokens (some ps)).length = tokens.length := by
  simp [assign_proxies]
  omega

/-- Claim C1: for every list of tokens (resources, length N) and proxies
(length M), `assign_proxies` returns exactly N pairs, pairing the first
min(N,M) tokens positionally with the first min(N,M) proxies and every other
token with no proxy; `assign_proxies [] _ = []` and with no/empty proxies
every token is paired with `none`. -/
theorem assign_proxies_spec (tokens proxies : List String) :
    ((assign_proxies tokens (some proxies)).length = tokens.length)
    ∧ (∀ (i : Nat) (t p : String), tokens[i]? = some t → proxies[i]? = some p →
        (assign_proxies tokens (some proxies))[i]? = some (t, some p))
    ∧ (∀ (i : Nat) (t : String), tokens[i]? = some t → proxies[i]? = none →
        (assign_proxies tokens (some proxies))[i]? = some (t, none))
    ∧ (assign_proxies [] (some proxies) = [])
    ∧ (assign_proxies tokens none = tokens.map (fun t => (t, none)))
    ∧ (assign_proxies tokens (some []) = tokens.map (fun t => (t, none))) := by
  refine ⟨assign_proxies_length tokens proxies, ?_, ?_, assign_proxies_nil_left proxies,
    assign_proxies_none tokens, assign_proxies_nil_right tokens⟩
  · intro i t p ht hp
    rw [assign_proxies_getElem?, ht, hp]
    rfl
  · intro i t ht hp
    rw [assign_proxies_getElem?, ht, hp]
    rfl

/-- Witness for C1 at concrete inputs N = 3, M = 2. -/
theorem assign_proxies_spec_witness :
    (assign_proxies ["a", "b", "c"] (some ["p", "q"]))[0]? = some ("a", some "p")
    ∧ (assign_proxies ["a", "b", "c"] (some ["p", "q"]))[2]? = some ("c", none) :=
  ⟨(assign_proxies_spec ["a", "b", "c"] ["p", "q"]).2.1 0 "a" "p" rfl rfl,
   (assign_proxies_spec ["a", "b", "c"] ["p", "q"]).2.2.1 2 "c" rfl rfl⟩

/-- Python exceptions the embedded code can raise or observe. -/
inductive PyExc where
  | valueError
  | netExc (n : Nat)
  | typeError
deriving DecidableEq

/-- Result of `resp.json()` followed by `data.get("ip", "Unknown")`: either the
decode raises, or it yields a dict whose optional `"ip"` entry is returned. -/
inductive JsonRes where
  | raise
  | dict (ip : Option String)
deriving DecidableEq

/-- An HTTP response as the source consumes it: its status code and the
outcome of decoding its body as JSON. -/
structure FResp where
  status : Nat
  jsonIp : JsonRes
deriving DecidableEq

/-- How a single resolution's outbound GET is configured (spec §4.4):
directly, through an HTTP(S) forward proxy whose endpoint has credentials
stripped and attached as basic auth, or through a SOCKS tunnel given the full
proxy URL. -/
inductive Strategy where
  | direct
  | forwardProxy (endpoint : String) (auth : Option (String × String))
  | socksTunnel (url : String)
deriving DecidableEq

/-- The ambient world: whether `aiohttp_socks` imported, and the network
oracle giving the outcome of GET attempt `k` (1-based) under a strategy. -/
structure Env where
  hasSocks : Bool
  fetch : Strategy → Nat → Except PyExc FResp

/-- The loop of `_fetch_with_retries`, with `m` attempts remaining starting at
attempt number `attempt`.  Returns the result (the response of the first
attempt that does not raise, otherwise the last exception re-raised after the
loop), the number of the final attempt made, and the list of backoff sleeps
`backoff * attempt` performed between a failed attempt and the next. -/
def fetchAux (oracle : Nat → Except PyExc FResp) (backoff : Nat) :
    Nat → Nat → Except PyExc FResp × Nat × List Nat
  | _, 0 => (.error .typeError, 0, [])
  | attempt, 1 => (oracle attempt, attempt, [])
  | attempt, n + 2 =>
    match oracle attempt with
    | .ok r => (.ok r, attempt, [])
    | .error _ =>
      let rest := fetchAux oracle backoff (attempt + 1) (n + 1)
      (rest.1, rest.2.1, backoff * attempt :: rest.2.2)

/-- `_fetch_with_retries(session, url, _attempts, _backoff)`: the source
always calls it with the defaults `_attempts = 3`, `_backoff = 1`. -/
def fetchWithRetries (oracle : Nat → Except PyExc FResp) (attempts backoff : Nat) :
    Except PyExc FResp × Nat × List Nat :=
  fetchAux oracle backoff 1 attempts

/-- Shared response handling in `get_ip_address`: a raised exception
propagates (carrying the current `proxy_ip` for the outer handler), a 200
response yields `data.get("ip", "Unknown")`, anything else returns
`"Unknown"`. -/
def respToResult (proxyIp : String) (r : Except PyExc FResp) : Except String String :=
  match r with
  | .error _ => .error proxyIp
  | .ok resp =>
    if resp.status = 200 then
      match resp.jsonIp with
      | .raise => .error proxyIp
      | .dict ip => .ok (ip.getD "Unknown")
    else .ok "Unknown"

/-- Outcome of the proxy-cleaning prelude of `get_ip_address` (lines 132-140):
either the proxy variable ends up falsy (direct request, `proxy_ip` stays
`"Unknown"`), or it is the stripped string of a valid proxy with `proxy_ip`
set to its hostname. -/
inductive Cleaned where
  | noProxy
  | vProxy (s : String) (host : String)
deriving DecidableEq

/-- Lines 132-140 of the source: strip the proxy, parse it, and invalidate it
unless scheme, hostname and port are all truthy.  `parsed.port` may raise
`ValueError` (propagating with `proxy_ip = "Unknown"`), as may `urlparse`
itself on mismatched brackets; Python's `or` short-circuits, so the port is
only evaluated when scheme and hostname are truthy. -/
def cleanProxy (proxy0 : Option String) : Except String Cleaned :=
  match proxy0 with
  | none => .ok .noProxy
  | some s =>
    if s = "" then .ok .noProxy
    else
      match urlparse (pyStrip s) with
      | .error _ => .error "Unknown"
      | .ok p =>
        if p.scheme = "" then .ok .noProxy
        else
          match hostnameOf p with
          | none => .ok .noProxy
          | some h =>
            match portOf p with
            | .error _ => .error "Unknown"
            | .ok none => .ok .noProxy
            | .ok (some n) => if n = 0 then .ok .noProxy else .ok (.vProxy (pyStrip s) h)

/-- The body of `get_ip_address` (the code inside its `try`): produces either
the returned string or a raised exception carrying the `proxy_ip` in scope at
the raise, together with the strategy of the GET performed, if any. -/
def getIpBody (env : Env) (proxy0 : Option String) :
    Except String String × Option Strategy :=
  match cleanProxy proxy0 with
  | .error pip => (.error pip, none)
  | .ok .noProxy =>
    let fr := fetchWithRetries (env.fetch .direct) 3 1
    (respToResult "Unknown" fr.1, some .direct)
  | .ok (.vProxy s h) =>
    match urlparse s with
    | .error _ => (.error h, none)
    | .ok p =>
      if pyStartsWith p.scheme "socks" then
        if !env.hasSocks then (.ok h, none)
        else
          let fr := fetchWithRetries (env.fetch (.socksTunnel s)) 3 1
          (respToResult h fr.1, some (.socksTunnel s))
      else
        match hostnameOf p, portOf p with
        | some hh, .ok (some n) =>
          let endpoint := p.scheme ++ "://" ++ hh ++ ":" ++ natRepr n
          let auth :=
            if truthyOpt (usernameOf p) || truthyOpt (passwordOf p) then
              some ((usernameOf p).getD "", (passwordOf p).getD "")
            else none
          let fr := fetchWithRetries (env.fetch (.forwardProxy endpoint auth)) 3 1
          (respToResult h fr.1, some (.forwardProxy endpoint auth))
        | _, _ => (.error h, none)

/-- `get_ip_address` as seen from its caller: the body wrapped in its
`try/except` (the handler logs and returns `proxy_ip`).  An `.error` result
would mean an exception escaped the function. -/
def get_ip_run (env : Env) (proxy0 : Option String) :
    Except PyExc (String × Option Strategy) :=
  match getIpBody env proxy0 with
  | (.ok s, c) => .ok (s, c)
  | (.error pip, c) => .ok (pip, c)

/-- `get_ip_address`: returned string plus the strategy of the GET made. -/
def get_ip_address (env : Env) (proxy0 : Option String) : String × Option Strategy :=
  match getIpBody env proxy0 with
  | (.ok s, c) => (s, c)
  | (.error pip, c) => (pip, c)

/-- A Python value held by an account's optional `proxy` attribute. -/
inductive PyVal where
  | str (s : String)
  | nonstr
deriving DecidableEq

/-- An account object as `resolve_ip_for_account` reads it: `getattr(account,
"proxy", None)` yields `proxy`; a missing attribute and an attribute set to
`None` are both `none`. -/
structure Account where
  proxy : Option PyVal
  index : Nat

/-- The body of `resolve_ip_for_account`'s `try`: use the account's proxy
only when it is a truthy string starting with `"http"` or `"socks"`. -/
def resolveBody (env : Env) (a : Account) :
    Except PyExc (String × Option Strategy) :=
  match a.proxy with
  | some (.str s) =>
    if !(s = "") && (pyStartsWith s "http" || pyStartsWith s "socks") then
      get_ip_run env (some s)
    else get_ip_run env none
  | _ => get_ip_run env none

/-- `resolve_ip_for_account` with its `try/except` wrapper (the handler logs
and returns `"Unknown"`). -/
def resolve_ip_run (env : Env) (a : Account) :
    Except PyExc (String × Option Strategy) :=
  match resolveBody env a with
  | .ok r => .ok r
  | .error _ => .ok ("Unknown", none)

/-- `resolve_ip_for_account` as a value. -/
def resolve_ip_for_account (env : Env) (a : Account) : String × Option Strategy :=
  match resolve_ip_run env a with
  | .ok r => r
  | .error _ => ("Unknown", none)

/-- Port display in `_mask_proxy`: `p.port or ""` interpolated into an
f-string (`0` is falsy). -/
def portString (p : UrlParts) : String :=
  match portOf p with
  | .ok (some m) => if m = 0 then "" else natRepr m
  | _ => ""

/-- `_mask_proxy` from the source: `urlparse` the string inside a `try`; any
raise (only the `port` property or bracket check can raise here) yields the
placeholder; otherwise mask using first-char-of-username, hostname and port. -/
def mask_proxy (proxy : String) : String :=
  match urlparse proxy with
  | .error _ => "masked-proxy"
  | .ok p =>
    match portOf p with
    | .error _ => "masked-proxy"
    | .ok _ =>
      let host := (hostnameOf p).getD "unknown"
      let user := (usernameOf p).getD ""
      if user ≠ "" then pyTake1 user ++ "***@" ++ host ++ ":" ++ portString p
      else host ++ ":" ++ portString p

lemma range_map_shift (b a d : Nat) :
    (List.range (d + 1)).map (fun i => b * (a + i)) =
      b * a :: (List.range d).map (fun i => b * (a + 1 + i)) := by
  rw [List.range_succ_eq_map, List.map_cons, List.map_map]
  refine congrArg₂ _ (by ring) ?_
  apply List.map_congr_left
  intro i _
  simp only [Function.comp_apply]
  congr 1
  omega

/-- The attempt number at which the retry loop stops is bounded by the total
attempt budget. -/
lemma fetchAux_made_le (oracle : Nat → Except PyExc FResp) (b : Nat) :
    ∀ m a, 1 ≤ m → (fetchAux oracle b a m).2.1 ≤ a + (m - 1) := by
  intro m
  induction m with
  | zero => intro a hm; omega
  | succ n ih =>
    intro a _
    cases n with
    | zero => simp [fetchAux]
    | succ k =>
      cases h : oracle a with
      | ok r => simp [fetchAux, h]
      | error e =>
        simp only [fetchAux, h]
        have hrec := ih (a + 1) (by omega)
        omega

/-- If attempts `a ≤ j < k` raise and attempt `k` (within budget) succeeds,
the loop returns that response at attempt `k`, having slept
`b * j` after every failed attempt `j`. -/
lemma fetchAux_ok (oracle : Nat → Except PyExc FResp) (b : Nat) :
    ∀ (m a k : Nat) (r : FResp), 1 ≤ m → a ≤ k → k ≤ a + (m - 1) →
      (∀ j, a ≤ j → j < k → ∃ e, oracle j = .error e) →
      oracle k = .ok r →
      fetchAux oracle b a m = (.ok r, k, (List.range (k - a)).map (fun i => b * (a + i))) := by
  intro m
  induction m with
  | zero => intro a k r hm; omega
  | succ n ih =>
    intro a k r _ hak hka hfail hok
    cases n with
    | zero =>
      have hk : k = a := by omega
      subst hk
      simp [fetchAux, hok]
    | succ m2 =>
      by_cases hke : k = a
      · subst hke
        simp [fetchAux, hok]
      · obtain ⟨e, he⟩ := hfail a le_rfl (by omega)
        simp only [fetchAux, he]
        have hrec := ih (a + 1) k r (by omega) (by omega) (by omega)
          (fun j hj1 hj2 => hfail j (by omega) hj2) hok
        rw [hrec]
        have hd : k - a = (k - a - 1) + 1 := by omega
        rw [hd, range_map_shift]
        have hd2 : k - a - 1 = k - (a + 1) := by omega
        rw [hd2]

/-- If every attempt in the budget raises, the loop re-raises the exception of
the last attempt after making all of them. -/
lemma fetchAux_allFail (oracle : Nat → Except PyExc FResp) (b : Nat) :
    ∀ (m a : Nat) (e : Nat → PyExc), 1 ≤ m →
      (∀ j, a ≤ j → j ≤ a + (m - 1) → oracle j = .error (e j)) →
      fetchAux oracle b a m =
        (.error (e (a + (m - 1))), a + (m - 1),
          (List.range (m - 1)).map (fun i => b * (a + i))) := by
  intro m
  induction m with
  | zero => intro a e hm; omega
  | succ n ih =>
    intro a e _ hfail
    cases n with
    | zero =>
      have h0 := hfail a le_rfl (by omega)
      simp [fetchAux, h0]
    | succ m2 =>
      have h0 := hfail a le_rfl (by omega)
      simp only [fetchAux, h0]
      have hrec := ih (a + 1) e (by omega) (fun j hj1 hj2 => hfail j (by omega) (by omega))
      rw [hrec]
      have hd : m2 + 1 + 1 - 1 = m2 + 1 := by omega
      rw [hd, range_map_shift]
      have hd2 : (a + 1) + (m2 + 1 - 1) = a + (m2 + 1) := by omega
      rw [hd2]
      have hd3 : m2 + 1 - 1 = m2 := by omega
      rw [hd3]

/-- Claim C6: for every retry policy with at least one attempt and positive
backoff, `_fetch_with_retries` stops at an attempt number at most
`maxAttempts`; if the first `k - 1` attempts raise and attempt `k` returns a
response, it returns that response at attempt `k`, having waited
`backoff * attemptNumber` after each failed attempt; and if every attempt
raises it makes exactly `maxAttempts` attempts and re-raises the exception of
the last one. -/
theorem fetch_retries_spec (oracle : Nat → Except PyExc FResp) (attempts backoff : Nat)
    (hA : 1 ≤ attempts) (_hB : 1 ≤ backoff) :
    ((fetchWithRetries oracle attempts backoff).2.1 ≤ attempts)
    ∧ (∀ (k : Nat) (r : FResp), 1 ≤ k → k ≤ attempts →
        (∀ j, 1 ≤ j → j < k → ∃ e, oracle j = .error e) →
        oracle k = .ok r →
        fetchWithRetries oracle attempts backoff =
          (.ok r, k, (List.range (k - 1)).map (fun i => backoff * (i + 1))))
    ∧ (∀ e : Nat → PyExc, (∀ j, 1 ≤ j → j ≤ attempts → oracle j = .error (e j)) →
        fetchWithRetries oracle attempts backoff =
          (.error (e attempts), attempts,
            (List.range (attempts - 1)).map (fun i => backoff * (i + 1)))) := by
  refine ⟨?_, ?_, ?_⟩
  · have h := fetchAux_made_le oracle backoff attempts 1 hA
    rw [fetchWithRetries]
    omega
  · intro k r hk1 hk2 hfail hok
    have h := fetchAux_ok oracle backoff attempts 1 k r hA hk1 (by omega) hfail hok
    rw [fetchWithRetries, h]
    have hmap : (List.range (k - 1)).map (fun i => backoff * (1 + i)) =
        (List.range (k - 1)).map (fun i => backoff * (i + 1)) :=
      List.map_congr_left (fun i _ => by ring)
    rw [hmap]
  · intro e hfail
    have h := fetchAux_allFail oracle backoff attempts 1 e hA
      (fun j hj1 hj2 => hfail j hj1 (by omega))
    rw [fetchWithRetries, h]
    have h1 : 1 + (attempts - 1) = attempts := by omega
    rw [h1]
    have hmap : (List.range (attempts - 1)).map (fun i => backoff * (1 + i)) =
        (List.range (attempts - 1)).map (fun i => backoff * (i + 1)) :=
      List.map_congr_left (fun i _ => by ring)
    rw [hmap]

/-- Oracle with two transient failures followed by a success. -/
def oracleW : Nat → Except PyExc FResp :=
  fun n => if n ≤ 2 then .error (.netExc n) else .ok ⟨200, .dict (some "7.7.7.7")⟩

/-- Witness for C6: two failures then a success, with `maxAttempts = 3` and
`baseBackoff = 1`, returns the success at attempt 3 after sleeping 1 then 2. -/
theorem fetch_retries_spec_witness :
    fetchWithRetries oracleW 3 1 = (.ok ⟨200, .dict (some "7.7.7.7")⟩, 3, [1, 2]) := by
  have hfail : ∀ j, 1 ≤ j → j < 3 → ∃ e, oracleW j = .error e := by
    intro j h1 h2
    interval_cases j
    · exact ⟨.netExc 1, rfl⟩
    · exact ⟨.netExc 2, rfl⟩
  have h := (fetch_retries_spec oracleW 3 1 (by norm_num) (by norm_num)).2.1 3
    ⟨200, .dict (some "7.7.7.7")⟩ (by norm_num) (by norm_num) hfail rfl
  exact h.trans rfl

/-- `get_ip_address` projects the `try/except`-wrapped body. -/
lemma get_ip_address_snd (env : Env) (p0 : Option String) :
    (get_ip_address env p0).2 = (getIpBody env p0).2 := by
  unfold get_ip_address
  rcases h : getIpBody env p0 with ⟨r, c⟩
  cases r <;> simp

/-- The wrapped run never escapes and returns exactly the function's value. -/
lemma get_ip_run_eq (env : Env) (p0 : Option String) :
    get_ip_run env p0 = .ok (get_ip_address env p0) := by
  unfold get_ip_run get_ip_address
  rcases h : getIpBody env p0 with ⟨r, c⟩
  cases r <;> simp

/-- When the cleaning prelude leaves no proxy, the body is a direct request. -/
lemma getIpBody_noProxy (env : Env) (p0 : Option String)
    (hc : cleanProxy p0 = .ok .noProxy) :
    getIpBody env p0 =
      (respToResult "Unknown" (fetchWithRetries (env.fetch .direct) 3 1).1,
        some .direct) := by
  simp only [getIpBody, hc]

lemma getIpBody_none (env : Env) :
    getIpBody env none =
      (respToResult "Unknown" (fetchWithRetries (env.fetch .direct) 3 1).1,
        some .direct) :=
  getIpBody_noProxy env none rfl

/-- The cleaning prelude on a valid proxy: stripped string kept, `proxy_ip`
set to the parsed hostname. -/
lemma cleanProxy_valid {s : String} {p : UrlParts} {h : String} {n : Nat}
    (hs : ¬ s = "") (hu : urlparse (pyStrip s) = .ok p) (hsch : ¬ p.scheme = "")
    (hh : hostnameOf p = some h) (hp : portOf p = .ok (some n)) (hn : ¬ n = 0) :
    cleanProxy (some s) = .ok (.vProxy (pyStrip s) h) := by
  simp only [cleanProxy, if_neg hs, hu, if_neg hsch, hh, hp, if_neg hn]

/-- Three raising attempts: the loop makes all three, sleeping 1 then 2
backoff units, and re-raises the last exception. -/
lemma fetchWithRetries3_allFail (oracle : Nat → Except PyExc FResp) (e : Nat → PyExc)
    (hf : ∀ k, oracle k = .error (e k)) :
    fetchWithRetries oracle 3 1 = (.error (e 3), 3, [1, 2]) := by
  have h3 := fetchAux_allFail oracle 1 3 1 e (by norm_num) (fun j hj1 hj2 => hf j)
  rw [fetchWithRetries]
  exact h3.trans rfl

/-- A first attempt that returns a response (of any status) ends the loop at
attempt 1 with no sleeps. -/
lemma fetchWithRetries3_okFirst (oracle : Nat → Except PyExc FResp) (r : FResp)
    (h : oracle 1 = .ok r) :
    fetchWithRetries oracle 3 1 = (.ok r, 1, []) := by
  have h1 := fetchAux_ok oracle 1 3 1 1 r (by norm_num) le_rfl (by norm_num)
    (fun j hj1 hj2 => absurd hj2 (by omega)) h
  rw [fetchWithRetries]
  exact h1.trans rfl

/-- First component of the retry loop when the attempts before `k` raise and
attempt `k` (within the 3-attempt budget) returns a response. -/
lemma fetchWithRetries3_fst_ok (oracle : Nat → Except PyExc FResp) (k : Nat) (r : FResp)
    (hk1 : 1 ≤ k) (hk3 : k ≤ 3)
    (hfail : ∀ j, 1 ≤ j → j < k → ∃ e, oracle j = .error e)
    (hok : oracle k = .ok r) :
    (fetchWithRetries oracle 3 1).1 = .ok r := by
  have h := fetchAux_ok oracle 1 3 1 k r (by norm_num) hk1 (by omega) hfail hok
  rw [fetchWithRetries, h]

/-- With a valid proxy whose scheme is not an unavailable-SOCKS one, and a
first attempt returning a response, the string `get_ip_address` returns is
the shared response handling applied to that response, with `proxy_ip` set to
the proxy's hostname. -/
lemma getIp_valid_fst (env : Env) (s h : String) (p : UrlParts) (n : Nat) (r : FResp)
    (hs : ¬ s = "") (hu : urlparse (pyStrip s) = .ok p) (hsch : ¬ p.scheme = "")
    (hh : hostnameOf p = some h) (hp : portOf p = .ok (some n)) (hn : ¬ n = 0)
    (hnos : pyStartsWith p.scheme "socks" = false ∨ env.hasSocks = true)
    (hf1 : ∀ st, env.fetch st 1 = .ok r) :
    (get_ip_address env (some s)).1 =
      (match respToResult h (Except.ok r) with
        | .ok v => v
        | .error pip => pip) := by
  have hc := cleanProxy_valid hs hu hsch hh hp hn
  unfold get_ip_address
  cases hsk : pyStartsWith p.scheme "socks" with
  | false =>
    simp only [getIpBody, hc, hu, hsk, Bool.false_eq_true, if_false, hh, hp]
    rw [fetchWithRetries3_fst_ok (env.fetch _) 1 r le_rfl (by norm_num)
      (fun j hj1 hj2 => absurd hj2 (by omega)) (hf1 _)]
    cases hr : respToResult h (Except.ok r) <;> rfl
  | true =>
    have hyes : env.hasSocks = true := by
      rcases hnos with hno | hyes
      · rw [hsk] at hno
        cases hno
      · exact hyes
    simp only [getIpBody, hc, hu, hsk, hyes, Bool.not_true, Bool.false_eq_true, if_false]
    rw [fetchWithRetries3_fst_ok (env.fetch _) 1 r le_rfl (by norm_num)
      (fun j hj1 hj2 => absurd hj2 (by omega)) (hf1 _)]
    cases hr : respToResult h (Except.ok r) <;> rfl

/-- Environment with SOCKS support missing and an always-successful network. -/
def envC2 : Env :=
  { hasSocks := false, fetch := fun _ _ => .ok ⟨200, .dict (some "9.9.9.9")⟩ }

/-- Counterexample to C2 as stated: with SOCKS support unavailable, a valid
`socks5` proxy makes `get_ip_address` return the proxy's hostname
`"1.2.3.4"`, not the sentinel `"Unknown"`. -/
theorem socks_unavailable_cex :
    (get_ip_address envC2 (some "socks5://1.2.3.4:1080")).1 = "1.2.3.4"
    ∧ ¬ (get_ip_address envC2 (some "socks5://1.2.3.4:1080")).1 = "Unknown" := by
  exact ⟨rfl, by decide⟩

/-- Claim C2 (amended): for every valid proxy whose scheme is `socks4` or
`socks5`, when SOCKS transport capability is unavailable `get_ip_address`
returns the proxy's parsed hostname (which is `"Unknown"` only if the host is
literally that string) and performs no fetch at all — in particular no Direct
fetch. -/
theorem socks_unavailable_amended (env : Env) (s h : String) (p : UrlParts) (n : Nat)
    (hs : ¬ s = "") (hu : urlparse (pyStrip s) = .ok p)
    (hsch : p.scheme = "socks4" ∨ p.scheme = "socks5")
    (hh : hostnameOf p = some h) (hp : portOf p = .ok (some n)) (hn : ¬ n = 0)
    (hsock : env.hasSocks = false) :
    get_ip_address env (some s) = (h, none) := by
  have hne : ¬ p.scheme = "" := by rcases hsch with h1 | h1 <;> simp [h1]
  have hstart : pyStartsWith p.scheme "socks" = true := by
    rcases hsch with h1 | h1 <;> rw [h1] <;> rfl
  have hc := cleanProxy_valid hs hu hne hh hp hn
  unfold get_ip_address
  simp only [getIpBody, hc, hu, hstart, hsock]
  rfl

/-- Witness for the amended C2 at `socks5://1.2.3.4:1080`. -/
theorem socks_unavailable_amended_witness :
    get_ip_address envC2 (some "socks5://1.2.3.4:1080") = ("1.2.3.4", none) :=
  socks_unavailable_amended envC2 "socks5://1.2.3.4:1080" "1.2.3.4"
    ⟨"socks5", "1.2.3.4:1080"⟩ 1080 (by decide) rfl (Or.inr rfl) rfl rfl
    (by decide) rfl

/-- Environment where every GET attempt raises. -/
def envC3 : Env :=
  { hasSocks := true, fetch := fun _ _ => .error (.netExc 7) }

/-- Counterexample to C3 as stated: with a valid proxy assigned and every
fetch attempt raising (retries exhausted), `get_ip_address` returns the
proxy's hostname, not `"Unknown"`. -/
theorem failure_returns_hostname_cex :
    ¬ (get_ip_address envC3 (some "http://1.2.3.4:8080")).1 = "Unknown" := by
  decide

/-- Environment whose every GET attempt returns HTTP 500. -/
def envC3b : Env :=
  { hasSocks := true, fetch := fun _ _ => .ok ⟨500, .dict none⟩ }

/-- Claim C3 (amended): every resolution failure returns exactly `"Unknown"`
except in one case — a valid proxy was parsed and the failure is a raised
exception (e.g. retry exhaustion), where the proxy's parsed hostname is
returned instead.  In particular retry exhaustion with no (valid) proxy, a
non-200 response with or without a valid proxy, and a 200 response missing
the `"ip"` field with or without a valid proxy all return `"Unknown"`. -/
theorem failure_sentinel_amended :
    (∀ (env : Env) (e : Nat → PyExc),
        (∀ k, env.fetch Strategy.direct k = .error (e k)) →
        get_ip_address env none = ("Unknown", some Strategy.direct))
    ∧ (∀ (env : Env) (r : FResp), env.fetch Strategy.direct 1 = .ok r →
        ¬ r.status = 200 →
        get_ip_address env none = ("Unknown", some Strategy.direct))
    ∧ (∀ (env : Env) (r : FResp), env.fetch Strategy.direct 1 = .ok r →
        r.status = 200 → r.jsonIp = JsonRes.dict none →
        get_ip_address env none = ("Unknown", some Strategy.direct))
    ∧ (∀ (env : Env) (s h : String) (p : UrlParts) (n : Nat) (e : Nat → PyExc),
        ¬ s = "" → urlparse (pyStrip s) = .ok p → ¬ p.scheme = "" →
        pyStartsWith p.scheme "socks" = false →
        hostnameOf p = some h → portOf p = .ok (some n) → ¬ n = 0 →
        (∀ st k, env.fetch st k = .error (e k)) →
        (get_ip_address env (some s)).1 = h)
    ∧ (∀ (env : Env) (s h : String) (p : UrlParts) (n : Nat) (r : FResp),
        ¬ s = "" → urlparse (pyStrip s) = .ok p → ¬ p.scheme = "" →
        hostnameOf p = some h → portOf p = .ok (some n) → ¬ n = 0 →
        (pyStartsWith p.scheme "socks" = false ∨ env.hasSocks = true) →
        (∀ st, env.fetch st 1 = .ok r) → ¬ r.status = 200 →
        (get_ip_address env (some s)).1 = "Unknown")
    ∧ (∀ (env : Env) (s h : String) (p : UrlParts) (n : Nat) (r : FResp),
        ¬ s = "" → urlparse (pyStrip s) = .ok p → ¬ p.scheme = "" →
        hostnameOf p = some h → portOf p = .ok (some n) → ¬ n = 0 →
        (pyStartsWith p.scheme "socks" = false ∨ env.hasSocks = true) →
        (∀ st, env.fetch st 1 = .ok r) → r.status = 200 →
        r.jsonIp = JsonRes.dict none →
        (get_ip_address env (some s)).1 = "Unknown") := by
  refine ⟨?_, ?_, ?_, ?_, ?_, ?_⟩
  · intro env e hfe
    unfold get_ip_address
    rw [getIpBody_none, fetchWithRetries3_allFail (env.fetch .direct) e hfe]
    rfl
  · intro env r h1 h2
    unfold get_ip_address
    rw [getIpBody_none, fetchWithRetries3_okFirst (env.fetch .direct) r h1]
    simp [respToResult, h2]
  · intro env r h1 h2 h3
    unfold get_ip_address
    rw [getIpBody_none, fetchWithRetries3_okFirst (env.fetch .direct) r h1]
    simp [respToResult, h2, h3]
  · intro env s h p n e hs hu hsch hsocks hh hp hn hfe
    have hc := cleanProxy_valid hs hu hsch hh hp hn
    unfold get_ip_address
    simp only [getIpBody, hc, hu, hsocks, Bool.false_eq_true, if_false, hh, hp]
    rw [fetchWithRetries3_allFail _ e (fun k => hfe _ k)]
    rfl
  · intro env s h p n r hs hu hsch hh hp hn hnos hf1 hst
    rw [getIp_valid_fst env s h p n r hs hu hsch hh hp hn hnos hf1]
    simp [respToResult, hst]
  · intro env s h p n r hs hu hsch hh hp hn hnos hf1 hst hjs
    rw [getIp_valid_fst env s h p n r hs hu hsch hh hp hn hnos hf1]
    simp [respToResult, hst, hjs]

/-- Witness for the amended C3: through the same valid proxy, exhausted
retries give the proxy host back, while a non-200 response gives
`"Unknown"`. -/
theorem failure_sentinel_amended_witness :
    (get_ip_address envC3 (some "http://1.2.3.4:8080")).1 = "1.2.3.4"
    ∧ (get_ip_address envC3b (some "http://1.2.3.4:8080")).1 = "Unknown" :=
  ⟨failure_sentinel_amended.2.2.2.1 envC3 "http://1.2.3.4:8080" "1.2.3.4"
      ⟨"http", "1.2.3.4:8080"⟩ 8080 (fun _ => .netExc 7)
      (by decide) rfl (by decide) rfl rfl rfl (by decide) (fun st k => rfl),
   failure_sentinel_amended.2.2.2.2.1 envC3b "http://1.2.3.4:8080" "1.2.3.4"
      ⟨"http", "1.2.3.4:8080"⟩ 8080 ⟨500, .dict none⟩
      (by decide) rfl (by decide) rfl rfl (by decide) (Or.inl rfl)
      (fun st => rfl) (by decide)⟩

/-- Environment whose network is healthy (every GET yields the IP). -/
def envC4 : Env :=
  { hasSocks := true, fetch := fun _ _ => .ok ⟨200, .dict (some "9.9.9.9")⟩ }

/-- Counterexample to C4 as stated: the malformed proxy `"http://host:abc"`
(invalid port) makes `parsed.port` raise, so `get_ip_address` returns
`"Unknown"` with no fetch at all, although a Direct resolution in the same
environment would have succeeded with `"9.9.9.9"`. -/
theorem invalid_port_no_direct_cex :
    get_ip_address envC4 (some "http://host:abc") = ("Unknown", none)
    ∧ get_ip_address envC4 none = ("9.9.9.9", some Strategy.direct) :=
  ⟨rfl, rfl⟩

/-- Claim C4 (amended): a proxy string that is empty, whitespace-only, or
parses with an empty scheme, no hostname, or an absent or zero port is
discarded and the resolution proceeds exactly as with no proxy, i.e. with the
Direct strategy; excluded is a port component that is non-numeric or out of
range, where `parsed.port` raises and the function returns `"Unknown"`
without any fetch. -/
theorem malformed_proxy_direct_amended (env : Env) (s : String)
    (hmal : s = "" ∨ ∃ p, urlparse (pyStrip s) = .ok p ∧
      (p.scheme = "" ∨ hostnameOf p = none ∨ portOf p = .ok none ∨
        portOf p = .ok (some 0))) :
    get_ip_address env (some s) = get_ip_address env none
    ∧ (get_ip_address env none).2 = some Strategy.direct := by
  have hc : cleanProxy (some s) = .ok .noProxy := by
    by_cases hse : s = ""
    · subst hse; rfl
    · rcases hmal with hs0 | ⟨p, hu, hcase⟩
      · exact absurd hs0 hse
      · simp only [cleanProxy, if_neg hse, hu]
        by_cases hsch : p.scheme = ""
        · rw [if_pos hsch]
        · rw [if_neg hsch]
          rcases hcase with h1 | h1 | h1 | h1
          · exact absurd h1 hsch
          · rw [h1]
          · cases hhn : hostnameOf p with
            | none => rfl
            | some hname => rw [h1]
          · cases hhn : hostnameOf p with
            | none => rfl
            | some hname => rw [h1]; simp
  constructor
  · unfold get_ip_address
    rw [getIpBody_noProxy env (some s) hc, getIpBody_none env]
  · rw [get_ip_address_snd, getIpBody_none env]

/-- Witness for the amended C4 at the schemeless string `"not-a-proxy"`. -/
theorem malformed_proxy_direct_witness :
    get_ip_address envC4 (some "not-a-proxy") = get_ip_address envC4 none :=
  (malformed_proxy_direct_amended envC4 "not-a-proxy"
    (Or.inr ⟨⟨"", ""⟩, rfl, Or.inl rfl⟩)).1

/-- Claim C5: neither `get_ip_address` nor `resolve_ip_for_account` lets an
exception escape its boundary: for every environment (arbitrary network
raises, malformed proxies, raising JSON decodes) both wrapped runs end in a
returned value. -/
theorem no_escape_spec (env : Env) (proxy0 : Option String) (a : Account) :
    (∃ v, get_ip_run env proxy0 = .ok v)
    ∧ (∃ w, resolve_ip_run env a = .ok w) := by
  constructor
  · exact ⟨get_ip_address env proxy0, get_ip_run_eq env proxy0⟩
  · unfold resolve_ip_run
    cases hb : resolveBody env a with
    | ok r => exact ⟨r, rfl⟩
    | error e => exact ⟨("Unknown", none), rfl⟩

/-- Environment whose first GET attempt yields HTTP 500 and whose later
attempts would yield HTTP 200 with an IP. -/
def envC7 : Env :=
  { hasSocks := true,
    fetch := fun _ k =>
      if k = 1 then .ok ⟨500, .dict none⟩ else .ok ⟨200, .dict (some "6.6.6.6")⟩ }

/-- Counterexample to C7 as stated: a non-2xx response ends the retry loop on
attempt 1 with no backoff sleeps — it is not retried like a transport
failure — and the resolution fails with `"Unknown"` even though attempt 2
would have returned 200. -/
theorem non2xx_not_retried_cex :
    fetchWithRetries (envC7.fetch .direct) 3 1 = (.ok ⟨500, .dict none⟩, 1, [])
    ∧ get_ip_address envC7 none = ("Unknown", some Strategy.direct) :=
  ⟨rfl, rfl⟩

/-- Claim C7 (amended): an HTTP response with a non-success status is *not*
retried: `_fetch_with_retries` returns it as the outcome of the attempt on
which it occurs — on the first attempt or after earlier raising attempts,
only raising attempts being retried — and `get_ip_address` then fails that
resolution with `"Unknown"` without further attempts, on the Direct path and
on proxied paths alike. -/
theorem non2xx_terminal_amended :
    (∀ (oracle : Nat → Except PyExc FResp) (k : Nat) (r : FResp),
        1 ≤ k → k ≤ 3 →
        (∀ j, 1 ≤ j → j < k → ∃ e, oracle j = .error e) →
        oracle k = .ok r →
        fetchWithRetries oracle 3 1 =
          (.ok r, k, (List.range (k - 1)).map (fun i => i + 1)))
    ∧ (∀ (env : Env) (k : Nat) (r : FResp), 1 ≤ k → k ≤ 3 →
        (∀ j, 1 ≤ j → j < k → ∃ e, env.fetch Strategy.direct j = .error e) →
        env.fetch Strategy.direct k = .ok r → ¬ r.status = 200 →
        get_ip_address env none = ("Unknown", some Strategy.direct))
    ∧ (∀ (env : Env) (s h : String) (p : UrlParts) (n : Nat) (r : FResp),
        ¬ s = "" → urlparse (pyStrip s) = .ok p → ¬ p.scheme = "" →
        hostnameOf p = some h → portOf p = .ok (some n) → ¬ n = 0 →
        (pyStartsWith p.scheme "socks" = false ∨ env.hasSocks = true) →
        (∀ st, env.fetch st 1 = .ok r) → ¬ r.status = 200 →
        (get_ip_address env (some s)).1 = "Unknown") := by
  refine ⟨?_, ?_, ?_⟩
  · intro oracle k r hk1 hk3 hfail hok
    have h := fetchAux_ok oracle 1 3 1 k r (by norm_num) hk1 (by omega) hfail hok
    rw [fetchWithRetries, h]
    have hmap : (List.range (k - 1)).map (fun i => 1 * (1 + i)) =
        (List.range (k - 1)).map (fun i => i + 1) :=
      List.map_congr_left (fun i _ => by omega)
    rw [hmap]
  · intro env k r hk1 hk3 hfail hok hst
    unfold get_ip_address
    rw [getIpBody_none, fetchWithRetries3_fst_ok (env.fetch .direct) k r hk1 hk3 hfail hok]
    simp [respToResult, hst]
  · intro env s h p n r hs hu hsch hh hp hn hnos hf1 hst
    rw [getIp_valid_fst env s h p n r hs hu hsch hh hp hn hnos hf1]
    simp [respToResult, hst]

/-- Oracle raising on attempt 1 and returning HTTP 502 on attempt 2. -/
def oracleC7b : Nat → Except PyExc FResp :=
  fun n =>
    if n = 1 then .error (.netExc 1)
    else if n = 2 then .ok ⟨502, .dict none⟩
    else .ok ⟨200, .dict (some "6.6.6.6")⟩

/-- Witness for the amended C7: a 502 arriving on attempt 2 (after one
raising attempt) ends the loop there, and a first-attempt 500 on the Direct
path resolves to `"Unknown"`. -/
theorem non2xx_terminal_amended_witness :
    fetchWithRetries oracleC7b 3 1 = (.ok ⟨502, .dict none⟩, 2, [1])
    ∧ get_ip_address envC7 none = ("Unknown", some Strategy.direct) := by
  constructor
  · have hfail : ∀ j, 1 ≤ j → j < 2 → ∃ e, oracleC7b j = .error e := by
      intro j h1 h2
      interval_cases j
      exact ⟨.netExc 1, rfl⟩
    have h := non2xx_terminal_amended.1 oracleC7b 2 ⟨502, .dict none⟩
      (by norm_num) (by norm_num) hfail rfl
    exact h.trans rfl
  · exact non2xx_terminal_amended.2.1 envC7 1 ⟨500, .dict none⟩ le_rfl (by norm_num)
      (fun j hj1 hj2 => absurd hj2 (by omega)) rfl (by decide)

/-- Claim C8: `_mask_proxy` yields `"<first-char-of-username>***@<host>:<port>"`
when a username is present, `"<host>:<port>"` when none is, and
`"masked-proxy"` exactly when parsing raises (bracket mismatch or invalid
port); the concrete example masks as specified with the password absent from
the output; and the output is a function of hostname, port and username only,
so the password never influences (in particular never appears through) the
mask. -/
theorem mask_proxy_spec :
    (mask_proxy "http://user:pw@10.0.0.1:8080" = "u***@10.0.0.1:8080")
    ∧ (containsSeg "pw".data (mask_proxy "http://user:pw@10.0.0.1:8080").data = false)
    ∧ (∀ (s u : String) (p : UrlParts), urlparse s = .ok p →
        (∃ po, portOf p = .ok po) → usernameOf p = some u → ¬ u = "" →
        mask_proxy s =
          pyTake1 u ++ "***@" ++ ((hostnameOf p).getD "unknown") ++ ":" ++ portString p)
    ∧ (∀ (s : String) (p : UrlParts), urlparse s = .ok p →
        (∃ po, portOf p = .ok po) → truthyOpt (usernameOf p) = false →
        mask_proxy s = ((hostnameOf p).getD "unknown") ++ ":" ++ portString p)
    ∧ (∀ (s : String) (p : UrlParts), urlparse s = .ok p → portOf p = .error () →
        mask_proxy s = "masked-proxy")
    ∧ (∀ s : String, urlparse s = .error () → mask_proxy s = "masked-proxy")
    ∧ (∀ (s t : String) (ps pt : UrlParts), urlparse s = .ok ps →
        urlparse t = .ok pt → hostnameOf ps = hostnameOf pt →
        portOf ps = portOf pt → usernameOf ps = usernameOf pt →
        mask_proxy s = mask_proxy t) := by
  refine ⟨rfl, rfl, ?_, ?_, ?_, ?_, ?_⟩
  · intro s u p hs hpo hu hune
    obtain ⟨po, hpo⟩ := hpo
    simp only [mask_proxy, hs, hpo, hu, Option.getD_some]
    rw [if_pos hune]
  · intro s p hs hpo htr
    obtain ⟨po, hpo⟩ := hpo
    simp only [mask_proxy, hs, hpo]
    cases hu : usernameOf p with
    | none => simp
    | some v =>
      rw [hu] at htr
      have hv : v = "" := by
        by_contra hne
        simp [truthyOpt, hne] at htr
      subst hv
      simp
  · intro s p hs hpo
    simp only [mask_proxy, hs, hpo]
  · intro s hs
    simp only [mask_proxy, hs]
  · intro s t ps pt hs ht hhost hport huser
    have hps : portString ps = portString pt := by
      unfold portString
      rw [hport]
    simp only [mask_proxy, hs, ht, hhost, hport, huser, hps]

/-- Witness for C8's username branch at the spec's concrete example. -/
theorem mask_proxy_spec_witness :
    mask_proxy "http://user:pw@10.0.0.1:8080" =
      pyTake1 "user" ++ "***@" ++
        ((hostnameOf ⟨"http", "user:pw@10.0.0.1:8080"⟩).getD "unknown") ++ ":" ++
        portString ⟨"http", "user:pw@10.0.0.1:8080"⟩ :=
  mask_proxy_spec.2.2.1 "http://user:pw@10.0.0.1:8080" "user"
    ⟨"http", "user:pw@10.0.0.1:8080"⟩ rfl ⟨some 8080, rfl⟩ rfl (by decide)

/-- Environment with a healthy network for the forward-proxy claims. -/
def envC9 : Env :=
  { hasSocks := true, fetch := fun _ _ => .ok ⟨200, .dict (some "9.9.9.9")⟩ }

/-- Claim C9: for every valid `http`/`https` proxy carrying a username or a
password, the GET is configured with a ForwardProxy strategy whose endpoint
string is exactly `scheme://host:port` — rebuilt from scheme, hostname and
port only, so the credentials are stripped from it — and whose credentials
are attached separately as a basic-auth pair. -/
theorem forward_proxy_auth_spec (env : Env) (s h : String) (p : UrlParts) (n : Nat)
    (hs : ¬ s = "") (hu : urlparse (pyStrip s) = .ok p)
    (hsch : p.scheme = "http" ∨ p.scheme = "https")
    (hh : hostnameOf p = some h) (hp : portOf p = .ok (some n)) (hn : ¬ n = 0)
    (hcred : truthyOpt (usernameOf p) = true ∨ truthyOpt (passwordOf p) = true) :
    (get_ip_address env (some s)).2 =
      some (.forwardProxy (p.scheme ++ "://" ++ h ++ ":" ++ natRepr n)
        (some ((usernameOf p).getD "", (passwordOf p).getD ""))) := by
  have hne : ¬ p.scheme = "" := by rcases hsch with h1 | h1 <;> simp [h1]
  have hnsocks : pyStartsWith p.scheme "socks" = false := by
    rcases hsch with h1 | h1 <;> rw [h1] <;> rfl
  have hcond : (truthyOpt (usernameOf p) || truthyOpt (passwordOf p)) = true := by
    rcases hcred with h1 | h1 <;> simp [h1]
  have hc := cleanProxy_valid hs hu hne hh hp hn
  rw [get_ip_address_snd]
  simp only [getIpBody, hc, hu, hnsocks, Bool.false_eq_true, if_false, hh, hp, hcond,
    if_true]

/-- Witness for C9 at `http://user:pw@10.0.0.1:8080`. -/
theorem forward_proxy_auth_spec_witness :
    (get_ip_address envC9 (some "http://user:pw@10.0.0.1:8080")).2 =
      some (.forwardProxy ("http" ++ "://" ++ "10.0.0.1" ++ ":" ++ natRepr 8080)
        (some ("user", "pw"))) :=
  forward_proxy_auth_spec envC9 "http://user:pw@10.0.0.1:8080" "10.0.0.1"
    ⟨"http", "user:pw@10.0.0.1:8080"⟩ 8080 (by decide) rfl (Or.inl rfl) rfl rfl
    (by decide) (Or.inl rfl)

/-- Environment for the account-level claim. -/
def envC10 : Env :=
  { hasSocks := true, fetch := fun _ _ => .ok ⟨200, .dict (some "5.5.5.5")⟩ }

/-- An account whose proxy attribute is a string of a non-proxy shape. -/
def acctC10 : Account := ⟨some (.str "ftp://x"), 0⟩

/-- Claim C10: when the account's `proxy` attribute is absent/None, a
non-string, or a string not starting with `"http"` or `"socks"`,
`resolve_ip_for_account` behaves exactly as a resolution with no proxy — the
value is never parsed or used — and that resolution uses the Direct
strategy. -/
theorem account_direct_spec (env : Env) (a : Account)
    (hcase : a.proxy = none ∨ a.proxy = some PyVal.nonstr ∨
      ∃ s, a.proxy = some (PyVal.str s) ∧ pyStartsWith s "http" = false ∧
        pyStartsWith s "socks" = false) :
    resolve_ip_for_account env a = get_ip_address env none
    ∧ (get_ip_address env none).2 = some Strategy.direct := by
  constructor
  · have hb : resolveBody env a = get_ip_run env none := by
      rcases hcase with h1 | h1 | ⟨s, h1, h2, h3⟩
      · simp [resolveBody, h1]
      · simp [resolveBody, h1]
      · simp [resolveBody, h1, h2, h3]
    unfold resolve_ip_for_account resolve_ip_run
    rw [hb, get_ip_run_eq]
  · rw [get_ip_address_snd, getIpBody_none]

/-- Witness for C10 at a proxy attribute `"ftp://x"`. -/
theorem account_direct_spec_witness :
    resolve_ip_for_account envC10 acctC10 = get_ip_address envC10 none :=
  (account_direct_spec envC10 acctC10
    (Or.inr (Or.inr ⟨"ftp://x", rfl, by decide, by decide⟩))).1
